import Mathlib

/-!
Shallow embedding of `src/geometry.cpp` (MSCG-release): minimum-image
displacements, distance / angle / dihedral observables and their analytic
derivatives, together with the numerical clamps `check_cos` / `check_sine`.

C++ `double` arithmetic is modelled by exact real arithmetic.  Output
parameters (`param_val`, the `derivatives` buffers) are modelled by explicit
state passing: each conditional function receives the buffers' prior contents
and returns their final contents, so "the buffer is left untouched" is the
statement that the returned field equals the passed-in one.
-/

set_option linter.unusedVariables false

namespace Geometry

/-- A 3-component real vector (the `std::array<double, 3>` / `rvec` of the source). -/
abbrev Vec3 := Fin 3 → ℝ

/-- Modelled from the spec: the degree conversion factor `180/π`
(`DEGREES_PER_RADIAN`, defined in `geometry.h`, which is not in `src/`;
the spec fixes the conversion factor as `180/π`). -/
noncomputable def DEGREES_PER_RADIAN : ℝ := 180 / Real.pi

/-- Modelled from the spec: "a fixed small epsilon for trig clamping"
(`VERYSMALL_F`, defined in `geometry.h`, which is not in `src/`).  Its exact
magnitude is immaterial to the claims; it only needs to be small, positive
and below 1. -/
noncomputable def VERYSMALL_F : ℝ := 1 / 1000000

/-- `geometry.cpp` line 12: `#define MAXFLOAT 1.0E10`, the non-restrictive
cutoff used by the value-only angle function. -/
def MAXFLOAT : ℝ := 1e10

/-- `geometry.cpp` lines 36-43.  Per axis: raw difference
`position[ids[1]] - position[ids[0]]`, then a single-step minimum-image
correction by one box length `2·half`.  `a`, `b` stand for `particle_ids[0]`,
`particle_ids[1]`. -/
noncomputable def subtract_min_image_vectors (a b : ℕ) (x : ℕ → Vec3) (box : Vec3) : Vec3 :=
  fun i =>
    if x b i - x a i > box i then x b i - x a i - 2 * box i
    else if x b i - x a i < - box i then x b i - x a i + 2 * box i
    else x b i - x a i

/-- `geometry.cpp` lines 45-50. -/
def cross_product (a b : Vec3) : Vec3 :=
  ![a 1 * b 2 - a 2 * b 1, a 2 * b 0 - a 0 * b 2, a 0 * b 1 - a 1 * b 0]

/-- `geometry.cpp` lines 52-57 (the loop `t += a[i] * b[i]` unrolled). -/
def dot_product (a b : Vec3) : ℝ := a 0 * b 0 + a 1 * b 1 + a 2 * b 2

/-- `geometry.cpp` lines 346-352: clamp a cosine into `[-1+ε, 1-ε]`. -/
noncomputable def check_cos (cos_theta : ℝ) : ℝ :=
  if cos_theta > 1 - VERYSMALL_F then 1 - VERYSMALL_F
  else if cos_theta < -1 + VERYSMALL_F then -1 + VERYSMALL_F
  else cos_theta

/-- `geometry.cpp` lines 340-344: push a sine away from `0` by `ε`
(two sequential conditional updates of the mutable argument). -/
noncomputable def check_sine (s : ℝ) : ℝ :=
  if (if s < 0 ∧ s > -VERYSMALL_F then -VERYSMALL_F else s) > 0 ∧
     (if s < 0 ∧ s > -VERYSMALL_F then -VERYSMALL_F else s) < VERYSMALL_F then VERYSMALL_F
  else (if s < 0 ∧ s > -VERYSMALL_F then -VERYSMALL_F else s)

/-- Result record of the pair functions: the returned `bool` plus the final
contents of `param_val` and `derivatives[0]`. -/
structure PairResult where
  within_cutoff : Bool
  param_val : ℝ
  deriv0 : Vec3

/-- `geometry.cpp` lines 73-90.  `param0`, `d0` are the prior contents of
`param_val` and `derivatives[0]`. -/
noncomputable def conditionally_calc_squared_distance_and_derivatives
    (a b : ℕ) (x : ℕ → Vec3) (box : Vec3) (cutoff2 : ℝ)
    (param0 : ℝ) (d0 : Vec3) : PairResult :=
  let displacement := subtract_min_image_vectors a b x box
  let rr2 := displacement 0 * displacement 0 + displacement 1 * displacement 1 +
    displacement 2 * displacement 2
  if rr2 > cutoff2 then ⟨false, rr2, d0⟩
  else ⟨true, rr2, fun i => 2 * displacement i⟩

/-- `geometry.cpp` lines 94-107. -/
noncomputable def conditionally_calc_distance_and_derivatives
    (a b : ℕ) (x : ℕ → Vec3) (box : Vec3) (cutoff2 : ℝ)
    (param0 : ℝ) (d0 : Vec3) : PairResult :=
  let r := conditionally_calc_squared_distance_and_derivatives a b x box cutoff2 param0 d0
  if r.within_cutoff then
    ⟨true, Real.sqrt r.param_val, fun i => 0.5 * r.deriv0 i / Real.sqrt r.param_val⟩
  else ⟨false, r.param_val, r.deriv0⟩

/-- Result record of the angle functions: the returned `bool` plus the final
contents of `param_val`, `derivatives[0]`, `derivatives[1]`. -/
structure AngleResult where
  within_cutoff : Bool
  param_val : ℝ
  deriv0 : Vec3
  deriv1 : Vec3

/-- `geometry.cpp` lines 111-151.  The vertex is `p2` (third id).  The scratch
buffers `dist_derivs_20` / `dist_derivs_21` are freshly allocated in the
source (uninitialized); they are only ever read on the path on which the
sub-calls have written them, so their initial contents are modelled as `0`. -/
noncomputable def conditionally_calc_angle_and_derivatives
    (p0 p1 p2 : ℕ) (x : ℕ → Vec3) (box : Vec3) (cutoff2 : ℝ)
    (param0 : ℝ) (d0 d1 : Vec3) : AngleResult :=
  let r20 := conditionally_calc_squared_distance_and_derivatives p2 p0 x box cutoff2 0
    (fun _ => 0)
  let r21 := conditionally_calc_squared_distance_and_derivatives p2 p1 x box cutoff2 0
    (fun _ => 0)
  if ¬ r20.within_cutoff ∨ ¬ r21.within_cutoff then ⟨false, param0, d0, d1⟩
  else
    let rr_20 := Real.sqrt r20.param_val
    let rr_21 := Real.sqrt r21.param_val
    let cos_theta := check_cos (dot_product r20.deriv0 r21.deriv0 / (4 * rr_20 * rr_21))
    let theta := Real.arccos cos_theta
    let sin_theta := Real.sin theta
    let rr_01_1 := 1 / (rr_20 * rr_21 * sin_theta)
    let rr_00c := cos_theta / (rr_20 * rr_20 * sin_theta)
    let rr_11c := cos_theta / (rr_21 * rr_21 * sin_theta)
    ⟨true, theta * DEGREES_PER_RADIAN,
     fun i => 0.5 * (r21.deriv0 i * rr_01_1 - rr_00c * r20.deriv0 i),
     fun i => 0.5 * (r20.deriv0 i * rr_01_1 - rr_11c * r21.deriv0 i)⟩

/-- Result record of the dihedral function: the returned `bool` plus the final
contents of `param_val`, `derivatives[0..2]`. -/
structure DihedralResult where
  within_cutoff : Bool
  param_val : ℝ
  deriv0 : Vec3
  deriv1 : Vec3
  deriv2 : Vec3

/-- `geometry.cpp` lines 192-246.  Note that the source assigns
`param_val = ±theta` with `theta = acos(cos_theta)` in radians (no
`DEGREES_PER_RADIAN` factor), and returns `true` unconditionally; `cutoff2`
is never consulted. -/
noncomputable def conditionally_calc_dihedral_and_derivatives
    (p0 p1 p2 p3 : ℕ) (x : ℕ → Vec3) (box : Vec3) (cutoff2 : ℝ)
    (param0 : ℝ) (d0 d1 d2 : Vec3) : DihedralResult :=
  let disp03 := subtract_min_image_vectors p3 p0 x box
  let disp23 := subtract_min_image_vectors p3 p2 x box
  let disp12 := subtract_min_image_vectors p2 p1 x box
  let rrbc := 1 / Real.sqrt (dot_product disp23 disp23)
  let pb := cross_product disp03 disp23
  let pc := cross_product disp12 disp23
  let pb2 := dot_product pb pb
  let rpb1 := 1 / Real.sqrt pb2
  let pc2 := dot_product pc pc
  let rpc1 := 1 / Real.sqrt pc2
  let pbpc := dot_product pb pc
  let cos_theta := check_cos (pbpc * rpb1 * rpc1)
  let theta := Real.arccos cos_theta
  let sign := - dot_product pb disp12 * rpb1 * rrbc
  let param_val := if sign < 0 then - theta else theta
  let dot03_23 := dot_product disp03 disp23
  let dot12_23 := dot_product disp12 disp23
  let r23_2 := dot_product disp23 disp23
  let fcoef := dot03_23 / r23_2
  let hcoef := 1 + dot12_23 / r23_2
  ⟨true, param_val,
   fun i => pb i / (rrbc * pb2),
   fun i => - pc i / (rrbc * pc2),
   fun i => - (pb i / (rrbc * pb2)) * fcoef - (- pc i / (rrbc * pc2)) * hcoef⟩

/-- `geometry.cpp` lines 254-263.  The source recomputes `displacement`
inside the loop; the recomputation is deterministic, so the accumulated sum
is the one below. -/
noncomputable def calc_squared_distance (a b : ℕ) (x : ℕ → Vec3) (box : Vec3) : ℝ :=
  let displacement := subtract_min_image_vectors a b x box
  displacement 0 * displacement 0 + displacement 1 * displacement 1 +
    displacement 2 * displacement 2

/-- `geometry.cpp` lines 267-271. -/
noncomputable def calc_distance (a b : ℕ) (x : ℕ → Vec3) (box : Vec3) : ℝ :=
  Real.sqrt (calc_squared_distance a b x box)

/-- `geometry.cpp` lines 275-297: value-only angle; calls the conditional
squared-distance function with the non-restrictive cutoff `MAXFLOAT` and
ignores the returned booleans. -/
noncomputable def calc_angle (p0 p1 p2 : ℕ) (x : ℕ → Vec3) (box : Vec3) : ℝ :=
  let r20 := conditionally_calc_squared_distance_and_derivatives p2 p0 x box MAXFLOAT 0
    (fun _ => 0)
  let r21 := conditionally_calc_squared_distance_and_derivatives p2 p1 x box MAXFLOAT 0
    (fun _ => 0)
  let rr_20 := Real.sqrt r20.param_val
  let rr_21 := Real.sqrt r21.param_val
  let cos_theta := check_cos (dot_product r20.deriv0 r21.deriv0 / (4 * rr_20 * rr_21))
  Real.arccos cos_theta * DEGREES_PER_RADIAN

/-- `geometry.cpp` lines 301-338: value-only dihedral; here
`theta = acos(c) * DEGREES_PER_RADIAN` and the sign flip is on `s > 0` with
`s = +dot(pb, disp12) * rpb1 * rrbc`. -/
noncomputable def calc_dihedral (p0 p1 p2 p3 : ℕ) (x : ℕ → Vec3) (box : Vec3) : ℝ :=
  let disp03 := subtract_min_image_vectors p3 p0 x box
  let disp23 := subtract_min_image_vectors p3 p2 x box
  let disp12 := subtract_min_image_vectors p2 p1 x box
  let rrbc := 1 / Real.sqrt (dot_product disp23 disp23)
  let pb := cross_product disp03 disp23
  let pc := cross_product disp12 disp23
  let pb2 := dot_product pb pb
  let rpb1 := 1 / Real.sqrt pb2
  let pc2 := dot_product pc pc
  let rpc1 := 1 / Real.sqrt pc2
  let pbpc := dot_product pb pc
  let c := check_cos (pbpc * rpb1 * rpc1)
  let theta := Real.arccos c * DEGREES_PER_RADIAN
  let s := dot_product pb disp12 * rpb1 * rrbc
  if s > 0 then - theta else theta

/-! ### Shared helper lemmas and concrete test configurations -/

/-- The conditional squared-distance function, rewritten through
`calc_squared_distance` and `subtract_min_image_vectors` (definitional). -/
lemma condSq_eq (a b : ℕ) (x : ℕ → Vec3) (box : Vec3) (cutoff2 param0 : ℝ) (d0 : Vec3) :
    conditionally_calc_squared_distance_and_derivatives a b x box cutoff2 param0 d0 =
      if calc_squared_distance a b x box > cutoff2 then
        ⟨false, calc_squared_distance a b x box, d0⟩
      else
        ⟨true, calc_squared_distance a b x box,
         fun i => 2 * subtract_min_image_vectors a b x box i⟩ := rfl

/-- `calc_squared_distance` is the dot product of the minimum-image
displacement with itself (definitional). -/
lemma calc_squared_distance_eq_dot (a b : ℕ) (x : ℕ → Vec3) (box : Vec3) :
    calc_squared_distance a b x box =
      dot_product (subtract_min_image_vectors a b x box)
        (subtract_min_image_vectors a b x box) := rfl

/-- Two concrete particles one length unit apart (for witnesses). -/
noncomputable def posA : ℕ → Vec3 := fun n => if n = 0 then ![0, 0, 0] else ![1, 0, 0]

/-- A roomy concrete box (no wrapping at these positions). -/
noncomputable def box10 : Vec3 := ![10, 10, 10]

/-- The zero vector, used as prior contents of derivative buffers. -/
def vz : Vec3 := fun _ => 0

/-! ### C3: contract of the conditional squared-distance function -/

/-- C3: `conditionally_calc_squared_distance_and_derivatives` always writes
the minimum-image squared distance to `param_val`; it returns `false` exactly
when that value strictly exceeds `cutoff2` (a pair exactly at `cutoff2` is in
range); on `false` the derivative buffer keeps its prior contents, and on
`true` it holds the gradient `2·Δ`. -/
theorem C3_squared_distance_contract (a b : ℕ) (x : ℕ → Vec3) (box : Vec3)
    (cutoff2 param0 : ℝ) (d0 : Vec3) :
    (conditionally_calc_squared_distance_and_derivatives a b x box cutoff2 param0 d0).param_val
      = dot_product (subtract_min_image_vectors a b x box)
          (subtract_min_image_vectors a b x box)
    ∧ ((conditionally_calc_squared_distance_and_derivatives a b x box cutoff2
          param0 d0).within_cutoff = false
        ↔ cutoff2 < dot_product (subtract_min_image_vectors a b x box)
            (subtract_min_image_vectors a b x box))
    ∧ (conditionally_calc_squared_distance_and_derivatives a b x box cutoff2 param0 d0).deriv0
      = if cutoff2 < dot_product (subtract_min_image_vectors a b x box)
            (subtract_min_image_vectors a b x box)
        then d0 else fun i => 2 * subtract_min_image_vectors a b x box i := by
  rw [condSq_eq, calc_squared_distance_eq_dot]
  split_ifs with h <;> simp [h]

/-- Witness for C3 at a concrete in-range input. -/
theorem C3_witness :
    (conditionally_calc_squared_distance_and_derivatives 0 1 posA box10 4 7 vz).param_val
      = dot_product (subtract_min_image_vectors 0 1 posA box10)
          (subtract_min_image_vectors 0 1 posA box10)
    ∧ ((conditionally_calc_squared_distance_and_derivatives 0 1 posA box10 4
          7 vz).within_cutoff = false
        ↔ (4:ℝ) < dot_product (subtract_min_image_vectors 0 1 posA box10)
            (subtract_min_image_vectors 0 1 posA box10))
    ∧ (conditionally_calc_squared_distance_and_derivatives 0 1 posA box10 4 7 vz).deriv0
      = if (4:ℝ) < dot_product (subtract_min_image_vectors 0 1 posA box10)
            (subtract_min_image_vectors 0 1 posA box10)
        then vz else fun i => 2 * subtract_min_image_vectors 0 1 posA box10 i :=
  C3_squared_distance_contract 0 1 posA box10 4 7 vz

/-- The conditional distance function, rewritten through
`calc_squared_distance` and `subtract_min_image_vectors`. -/
lemma condDist_eq (a b : ℕ) (x : ℕ → Vec3) (box : Vec3) (cutoff2 param0 : ℝ) (d0 : Vec3) :
    conditionally_calc_distance_and_derivatives a b x box cutoff2 param0 d0 =
      if calc_squared_distance a b x box > cutoff2 then
        ⟨false, calc_squared_distance a b x box, d0⟩
      else
        ⟨true, Real.sqrt (calc_squared_distance a b x box),
         fun i => 0.5 * (2 * subtract_min_image_vectors a b x box i)
           / Real.sqrt (calc_squared_distance a b x box)⟩ := by
  by_cases h : calc_squared_distance a b x box > cutoff2
  · simp only [conditionally_calc_distance_and_derivatives, condSq_eq, if_pos h]
    simp
  · simp only [conditionally_calc_distance_and_derivatives, condSq_eq, if_neg h]
    simp

/-! ### C4: the distance variant refines the squared-distance variant -/

/-- C4: `conditionally_calc_distance_and_derivatives` returns the same
in/out-of-range boolean as the squared-distance variant; when in range its
value is the square root of the squared-distance value, and its gradient is
the squared-distance gradient rescaled by `1/(2·distance)`, i.e. `Δ/r`. -/
theorem C4_distance_refines_squared_distance (a b : ℕ) (x : ℕ → Vec3) (box : Vec3)
    (cutoff2 param0 : ℝ) (d0 : Vec3) :
    (conditionally_calc_distance_and_derivatives a b x box cutoff2 param0 d0).within_cutoff
      = (conditionally_calc_squared_distance_and_derivatives a b x box cutoff2
          param0 d0).within_cutoff
    ∧ ((conditionally_calc_distance_and_derivatives a b x box cutoff2 param0
          d0).within_cutoff = true →
        (conditionally_calc_distance_and_derivatives a b x box cutoff2 param0 d0).param_val
          = Real.sqrt (conditionally_calc_squared_distance_and_derivatives a b x box cutoff2
              param0 d0).param_val
        ∧ (conditionally_calc_distance_and_derivatives a b x box cutoff2 param0 d0).deriv0
          = (fun i => (conditionally_calc_squared_distance_and_derivatives a b x box cutoff2
                param0 d0).deriv0 i
              / (2 * (conditionally_calc_distance_and_derivatives a b x box cutoff2 param0
                  d0).param_val))
        ∧ (conditionally_calc_distance_and_derivatives a b x box cutoff2 param0 d0).deriv0
          = fun i => subtract_min_image_vectors a b x box i
              / (conditionally_calc_distance_and_derivatives a b x box cutoff2 param0
                  d0).param_val) := by
  by_cases h : calc_squared_distance a b x box > cutoff2
  · rw [condDist_eq, condSq_eq, if_pos h, if_pos h]
    simp
  · rw [condDist_eq, condSq_eq, if_neg h, if_neg h]
    refine ⟨rfl, fun _ => ⟨rfl, funext fun i => ?_, funext fun i => ?_⟩⟩ <;> simp <;> ring

/-- Witness for C4 at a concrete in-range input: the pair in `posA` is at
squared distance `1 ≤ 4`, so both variants are in range and the distance
value is `√1`. -/
theorem C4_witness :
    (conditionally_calc_distance_and_derivatives 0 1 posA box10 4 7 vz).within_cutoff
      = (conditionally_calc_squared_distance_and_derivatives 0 1 posA box10 4
          7 vz).within_cutoff
    ∧ (conditionally_calc_distance_and_derivatives 0 1 posA box10 4 7 vz).param_val
      = Real.sqrt (conditionally_calc_squared_distance_and_derivatives 0 1 posA box10 4
          7 vz).param_val
    ∧ (conditionally_calc_distance_and_derivatives 0 1 posA box10 4 7 vz).param_val = 1 := by
  have h := C4_distance_refines_squared_distance 0 1 posA box10 4 7 vz
  have hin : (conditionally_calc_distance_and_derivatives 0 1 posA box10 4
      7 vz).within_cutoff = true := by
    rw [h.1, condSq_eq]
    norm_num [calc_squared_distance, subtract_min_image_vectors, posA, box10]
  refine ⟨h.1, (h.2 hin).1, ?_⟩
  rw [(h.2 hin).1, condSq_eq]
  norm_num [calc_squared_distance, subtract_min_image_vectors, posA, box10]

/-! ### C6: the conditional dihedral function never fails -/

/-- C6: `conditionally_calc_dihedral_and_derivatives` returns `true` for
every input; the `cutoff2` argument and the prior buffer contents never
influence the result, so `param_val` and all three gradients are always
written. -/
theorem C6_dihedral_always_succeeds (p0 p1 p2 p3 : ℕ) (x : ℕ → Vec3) (box : Vec3)
    (cutoff2 cutoff2' param0 param0' : ℝ) (d0 d1 d2 d0' d1' d2' : Vec3) :
    (conditionally_calc_dihedral_and_derivatives p0 p1 p2 p3 x box cutoff2 param0
        d0 d1 d2).within_cutoff = true
    ∧ conditionally_calc_dihedral_and_derivatives p0 p1 p2 p3 x box cutoff2 param0 d0 d1 d2
      = conditionally_calc_dihedral_and_derivatives p0 p1 p2 p3 x box cutoff2' param0'
          d0' d1' d2' :=
  ⟨rfl, rfl⟩

/-! ### C2: the two dihedral sign conventions agree -/

/-- C2: `calc_dihedral` negates on `s > 0` and the derivative variant negates
on `sign < 0` with `sign = -s`; both flips fire under the same geometric
condition, so on every input the two values have the same sign and equal
magnitude up to the (positive) unit conversion factor. -/
theorem C2_sign_conventions_agree (p0 p1 p2 p3 : ℕ) (x : ℕ → Vec3) (box : Vec3)
    (cutoff2 param0 : ℝ) (d0 d1 d2 : Vec3) :
    calc_dihedral p0 p1 p2 p3 x box
      = DEGREES_PER_RADIAN *
        (conditionally_calc_dihedral_and_derivatives p0 p1 p2 p3 x box cutoff2 param0
          d0 d1 d2).param_val
    ∧ 0 < DEGREES_PER_RADIAN := by
  constructor
  · simp only [calc_dihedral, conditionally_calc_dihedral_and_derivatives]
    have hiff : ∀ A : ℝ, (-A < 0) ↔ (A > 0) := fun A => by
      constructor <;> intro <;> linarith
    simp only [neg_mul, hiff]
    split_ifs with h <;> ring
  · have hpi : (0:ℝ) < Real.pi := Real.pi_pos
    rw [DEGREES_PER_RADIAN]
    positivity

/-! ### Further shared helpers: angle branch lemmas, clamp bounds -/

/-- Three concrete particles, vertex `2` at `(1,0,0)`, ends at `(0,0,0)` and
`(1,1,0)` (the spec's right-angle scenario). -/
noncomputable def posB : ℕ → Vec3 :=
  fun n => if n = 0 then ![0, 0, 0] else if n = 1 then ![1, 1, 0] else ![1, 0, 0]

/-- Four concrete particles forming a 90° dihedral. -/
noncomputable def posC1 : ℕ → Vec3 :=
  fun n => if n = 0 then ![1, 0, 0] else if n = 1 then ![0, 1, 1]
    else if n = 2 then ![0, 0, 1] else ![0, 0, 0]

/-- The clamp keeps every cosine in `[-1+ε, 1-ε]`. -/
lemma check_cos_mem (c : ℝ) :
    -1 + VERYSMALL_F ≤ check_cos c ∧ check_cos c ≤ 1 - VERYSMALL_F := by
  unfold check_cos VERYSMALL_F
  split_ifs with h1 h2
  · constructor <;> norm_num
  · constructor <;> norm_num
  · push_neg at h1 h2
    norm_num at h1 h2 ⊢
    constructor <;> linarith

/-- Radians-to-degrees bound transfer. -/
lemma deg_bounds (t : ℝ) (h0 : 0 ≤ t) (h1 : t ≤ Real.pi) :
    0 ≤ t * DEGREES_PER_RADIAN ∧ t * DEGREES_PER_RADIAN ≤ 180 := by
  have hpi := Real.pi_pos
  have hd : (0:ℝ) ≤ DEGREES_PER_RADIAN := by rw [DEGREES_PER_RADIAN]; positivity
  have h2 : Real.pi * DEGREES_PER_RADIAN = 180 := by
    rw [DEGREES_PER_RADIAN]; field_simp
  exact ⟨mul_nonneg h0 hd, by nlinarith [mul_le_mul_of_nonneg_right h1 hd]⟩

/-- On the out-of-range branch the angle function hands back the prior
buffer contents. -/
lemma condAngle_false (p0 p1 p2 : ℕ) (x : ℕ → Vec3) (box : Vec3)
    (cutoff2 param0 : ℝ) (d0 d1 : Vec3)
    (h : cutoff2 < calc_squared_distance p2 p0 x box
      ∨ cutoff2 < calc_squared_distance p2 p1 x box) :
    conditionally_calc_angle_and_derivatives p0 p1 p2 x box cutoff2 param0 d0 d1
      = ⟨false, param0, d0, d1⟩ := by
  rcases h with h | h <;>
    simp [conditionally_calc_angle_and_derivatives, condSq_eq, h]

/-- On the in-range branch the angle function succeeds and its value is the
clamped-arccosine formula in degrees. -/
lemma condAngle_true (p0 p1 p2 : ℕ) (x : ℕ → Vec3) (box : Vec3)
    (cutoff2 param0 : ℝ) (d0 d1 : Vec3)
    (h20 : ¬ cutoff2 < calc_squared_distance p2 p0 x box)
    (h21 : ¬ cutoff2 < calc_squared_distance p2 p1 x box) :
    (conditionally_calc_angle_and_derivatives p0 p1 p2 x box cutoff2 param0
        d0 d1).within_cutoff = true
    ∧ (conditionally_calc_angle_and_derivatives p0 p1 p2 x box cutoff2 param0
        d0 d1).param_val
      = Real.arccos (check_cos (dot_product
          (fun i => 2 * subtract_min_image_vectors p2 p0 x box i)
          (fun i => 2 * subtract_min_image_vectors p2 p1 x box i)
          / (4 * Real.sqrt (calc_squared_distance p2 p0 x box)
             * Real.sqrt (calc_squared_distance p2 p1 x box)))) * DEGREES_PER_RADIAN := by
  constructor <;>
    simp [conditionally_calc_angle_and_derivatives, condSq_eq, h20, h21]

/-! ### C5: angle range exclusion -/

/-- C5: the conditional angle function returns `false` exactly when one of
the vertex sub-pairs exceeds the shared cutoff, and in that case `param_val`
and both caller derivative buffers keep their prior contents; it returns
`true` only when both sub-pairs are in range. -/
theorem C5_angle_range_exclusion (p0 p1 p2 : ℕ) (x : ℕ → Vec3) (box : Vec3)
    (cutoff2 param0 : ℝ) (d0 d1 : Vec3) :
    ((conditionally_calc_angle_and_derivatives p0 p1 p2 x box cutoff2 param0
        d0 d1).within_cutoff = false
      ↔ (cutoff2 < calc_squared_distance p2 p0 x box
          ∨ cutoff2 < calc_squared_distance p2 p1 x box))
    ∧ ((cutoff2 < calc_squared_distance p2 p0 x box
          ∨ cutoff2 < calc_squared_distance p2 p1 x box) →
        conditionally_calc_angle_and_derivatives p0 p1 p2 x box cutoff2 param0 d0 d1
          = ⟨false, param0, d0, d1⟩) := by
  refine ⟨⟨fun hf => ?_, fun h => by rw [condAngle_false p0 p1 p2 x box cutoff2 param0 d0 d1 h]⟩,
    condAngle_false p0 p1 p2 x box cutoff2 param0 d0 d1⟩
  by_cases h20 : cutoff2 < calc_squared_distance p2 p0 x box
  · exact Or.inl h20
  by_cases h21 : cutoff2 < calc_squared_distance p2 p1 x box
  · exact Or.inr h21
  exact absurd hf (by rw [(condAngle_true p0 p1 p2 x box cutoff2 param0 d0 d1 h20 h21).1]; simp)

/-- Witness for C5 at a concrete input: in `posB` with cutoff² `1/2` both
vertex sub-pairs are at squared distance `1 > 1/2`, so the call is rejected
and the buffers are untouched. -/
theorem C5_witness :
    ((conditionally_calc_angle_and_derivatives 0 1 2 posB box10 (1/2) 7
        vz vz).within_cutoff = false
      ↔ ((1:ℝ)/2 < calc_squared_distance 2 0 posB box10
          ∨ (1:ℝ)/2 < calc_squared_distance 2 1 posB box10))
    ∧ (conditionally_calc_angle_and_derivatives 0 1 2 posB box10 (1/2) 7 vz vz
        = ⟨false, 7, vz, vz⟩) := by
  have h := C5_angle_range_exclusion 0 1 2 posB box10 (1/2) 7 vz vz
  have hgt : (1:ℝ)/2 < calc_squared_distance 2 0 posB box10 := by
    norm_num [calc_squared_distance, subtract_min_image_vectors, posB, box10]
  exact ⟨h.1, h.2 (Or.inl hgt)⟩

/-! ### C8: angle values lie in [0,180] degrees -/

/-- C8: for non-degenerate inputs (both vertex distances nonzero) the angle
reported by `calc_angle`, and by the conditional variant when it succeeds,
lies in `[0, 180]` degrees: the clamped cosine always lands in the `arccos`
domain. -/
theorem C8_angle_domain (p0 p1 p2 : ℕ) (x : ℕ → Vec3) (box : Vec3)
    (cutoff2 param0 : ℝ) (d0 d1 : Vec3)
    (h20 : calc_squared_distance p2 p0 x box ≠ 0)
    (h21 : calc_squared_distance p2 p1 x box ≠ 0) :
    (0 ≤ calc_angle p0 p1 p2 x box ∧ calc_angle p0 p1 p2 x box ≤ 180)
    ∧ ((conditionally_calc_angle_and_derivatives p0 p1 p2 x box cutoff2 param0
          d0 d1).within_cutoff = true →
        0 ≤ (conditionally_calc_angle_and_derivatives p0 p1 p2 x box cutoff2 param0
            d0 d1).param_val
        ∧ (conditionally_calc_angle_and_derivatives p0 p1 p2 x box cutoff2 param0
            d0 d1).param_val ≤ 180) := by
  constructor
  · exact deg_bounds _ (Real.arccos_nonneg _) (Real.arccos_le_pi _)
  · intro hw
    by_cases c20 : cutoff2 < calc_squared_distance p2 p0 x box
    · rw [condAngle_false p0 p1 p2 x box cutoff2 param0 d0 d1 (Or.inl c20)] at hw
      simp at hw
    by_cases c21 : cutoff2 < calc_squared_distance p2 p1 x box
    · rw [condAngle_false p0 p1 p2 x box cutoff2 param0 d0 d1 (Or.inr c21)] at hw
      simp at hw
    rw [(condAngle_true p0 p1 p2 x box cutoff2 param0 d0 d1 c20 c21).2]
    exact deg_bounds _ (Real.arccos_nonneg _) (Real.arccos_le_pi _)

/-- Witness for C8: the right-angle scenario of the spec; the vertex
sub-distances are `1 ≠ 0`, the conditional call succeeds, and the computed
angle is exactly `90`. -/
theorem C8_witness :
    calc_squared_distance 2 0 posB box10 ≠ 0
    ∧ calc_squared_distance 2 1 posB box10 ≠ 0
    ∧ (0 ≤ calc_angle 0 1 2 posB box10 ∧ calc_angle 0 1 2 posB box10 ≤ 180)
    ∧ calc_angle 0 1 2 posB box10 = 90 := by
  have e20 : calc_squared_distance 2 0 posB box10 = 1 := by
    norm_num [calc_squared_distance, subtract_min_image_vectors, posB, box10]
  have e21 : calc_squared_distance 2 1 posB box10 = 1 := by
    norm_num [calc_squared_distance, subtract_min_image_vectors, posB, box10]
  have h20 : calc_squared_distance 2 0 posB box10 ≠ 0 := by rw [e20]; norm_num
  have h21 : calc_squared_distance 2 1 posB box10 ≠ 0 := by rw [e21]; norm_num
  refine ⟨h20, h21, (C8_angle_domain 0 1 2 posB box10 10 0 vz vz h20 h21).1, ?_⟩
  have hcos : check_cos (dot_product
      (fun i => 2 * subtract_min_image_vectors 2 0 posB box10 i)
      (fun i => 2 * subtract_min_image_vectors 2 1 posB box10 i)
      / (4 * Real.sqrt (calc_squared_distance 2 0 posB box10)
         * Real.sqrt (calc_squared_distance 2 1 posB box10))) = 0 := by
    norm_num [check_cos, VERYSMALL_F, dot_product, subtract_min_image_vectors, posB, box10]
  have : calc_angle 0 1 2 posB box10
      = Real.arccos (check_cos (dot_product
          (fun i => 2 * subtract_min_image_vectors 2 0 posB box10 i)
          (fun i => 2 * subtract_min_image_vectors 2 1 posB box10 i)
          / (4 * Real.sqrt (calc_squared_distance 2 0 posB box10)
             * Real.sqrt (calc_squared_distance 2 1 posB box10)))) * DEGREES_PER_RADIAN := by
    simp [calc_angle, condSq_eq, MAXFLOAT, e20, e21,
      show ¬ (1e10:ℝ) < 1 by norm_num]
  rw [this, hcos, Real.arccos_zero, DEGREES_PER_RADIAN]
  field_simp
  ring

/-! ### C1: the conditional dihedral reports radians, not degrees -/

/-- C1 (failing input): at a concrete 90° dihedral the derivative-returning
dihedral function writes `π/2` — the signed angle in **radians** — to
`param_val`, not `180/π` times it: the claimed degree value would be `90`,
which is what the value-only `calc_dihedral` indeed returns on the same
input, and `π/2 ≠ 90`. -/
theorem C1_dihedral_not_converted_to_degrees :
    (conditionally_calc_dihedral_and_derivatives 0 1 2 3 posC1 box10 100 0
        vz vz vz).param_val = Real.pi / 2
    ∧ calc_dihedral 0 1 2 3 posC1 box10 = 90
    ∧ DEGREES_PER_RADIAN * (Real.pi / 2) = 90
    ∧ Real.pi / 2 ≠ 90 := by
  have hd03 : subtract_min_image_vectors 3 0 posC1 box10 = ![1, 0, 0] := by
    funext i; fin_cases i <;> norm_num [subtract_min_image_vectors, posC1, box10]
  have hd23 : subtract_min_image_vectors 3 2 posC1 box10 = ![0, 0, 1] := by
    funext i; fin_cases i <;> norm_num [subtract_min_image_vectors, posC1, box10]
  have hd12 : subtract_min_image_vectors 2 1 posC1 box10 = ![0, 1, 0] := by
    funext i; fin_cases i <;> norm_num [subtract_min_image_vectors, posC1, box10]
  have hpi := Real.pi_pos
  refine ⟨?_, ?_, ?_, ?_⟩
  · simp only [conditionally_calc_dihedral_and_derivatives, hd03, hd23, hd12]
    norm_num [cross_product, dot_product, check_cos, VERYSMALL_F,
      Real.sqrt_one, Real.arccos_zero]
  · simp only [calc_dihedral, hd03, hd23, hd12]
    norm_num [cross_product, dot_product, check_cos, VERYSMALL_F,
      Real.sqrt_one, Real.arccos_zero, DEGREES_PER_RADIAN]
    field_simp
    ring
  · rw [DEGREES_PER_RADIAN]; field_simp; ring
  · have h315 := Real.pi_lt_d2
    intro he; linarith

/-! ### C10: the angle path cannot divide by a zero sine -/

/-- C10: in the angle derivative computation the clamped cosine lies in
`[-1+ε, 1-ε]`, so `θ = arccos(cos θ)` lies strictly inside `(0, π)`,
`sin θ` is strictly positive and bounded below by `sin(arccos(1-ε))`; hence
(for nonzero vertex distances) none of the three `sin θ`-carrying
denominators vanish, and `check_sine` would leave `sin θ` unchanged — the
sine guard is not needed on this path.  The final conjunct ties `θ` to the
value actually reported by the angle function. -/
theorem C10_angle_sine_never_zero (p0 p1 p2 : ℕ) (x : ℕ → Vec3) (box : Vec3)
    (cutoff2 param0 : ℝ) (d0 d1 : Vec3) (c θ : ℝ)
    (hc : c = check_cos (dot_product
        (conditionally_calc_squared_distance_and_derivatives p2 p0 x box cutoff2 0
          (fun _ => 0)).deriv0
        (conditionally_calc_squared_distance_and_derivatives p2 p1 x box cutoff2 0
          (fun _ => 0)).deriv0
        / (4 * Real.sqrt (conditionally_calc_squared_distance_and_derivatives p2 p0 x box
              cutoff2 0 (fun _ => 0)).param_val
           * Real.sqrt (conditionally_calc_squared_distance_and_derivatives p2 p1 x box
              cutoff2 0 (fun _ => 0)).param_val)))
    (hθ : θ = Real.arccos c)
    (h20 : Real.sqrt (conditionally_calc_squared_distance_and_derivatives p2 p0 x box
        cutoff2 0 (fun _ => 0)).param_val ≠ 0)
    (h21 : Real.sqrt (conditionally_calc_squared_distance_and_derivatives p2 p1 x box
        cutoff2 0 (fun _ => 0)).param_val ≠ 0) :
    0 < θ ∧ θ < Real.pi ∧ 0 < Real.sin θ
    ∧ Real.sin (Real.arccos (1 - VERYSMALL_F)) ≤ Real.sin θ
    ∧ Real.sqrt (conditionally_calc_squared_distance_and_derivatives p2 p0 x box cutoff2 0
          (fun _ => 0)).param_val
        * Real.sqrt (conditionally_calc_squared_distance_and_derivatives p2 p1 x box cutoff2 0
          (fun _ => 0)).param_val * Real.sin θ ≠ 0
    ∧ Real.sqrt (conditionally_calc_squared_distance_and_derivatives p2 p0 x box cutoff2 0
          (fun _ => 0)).param_val
        * Real.sqrt (conditionally_calc_squared_distance_and_derivatives p2 p0 x box cutoff2 0
          (fun _ => 0)).param_val * Real.sin θ ≠ 0
    ∧ Real.sqrt (conditionally_calc_squared_distance_and_derivatives p2 p1 x box cutoff2 0
          (fun _ => 0)).param_val
        * Real.sqrt (conditionally_calc_squared_distance_and_derivatives p2 p1 x box cutoff2 0
          (fun _ => 0)).param_val * Real.sin θ ≠ 0
    ∧ check_sine (Real.sin θ) = Real.sin θ
    ∧ ((conditionally_calc_angle_and_derivatives p0 p1 p2 x box cutoff2 param0
          d0 d1).within_cutoff = true →
        (conditionally_calc_angle_and_derivatives p0 p1 p2 x box cutoff2 param0
          d0 d1).param_val = θ * DEGREES_PER_RADIAN) := by
  set cc : ℝ := check_cos (dot_product
      (conditionally_calc_squared_distance_and_derivatives p2 p0 x box cutoff2 0
        (fun _ => 0)).deriv0
      (conditionally_calc_squared_distance_and_derivatives p2 p1 x box cutoff2 0
        (fun _ => 0)).deriv0
      / (4 * Real.sqrt (conditionally_calc_squared_distance_and_derivatives p2 p0 x box
            cutoff2 0 (fun _ => 0)).param_val
         * Real.sqrt (conditionally_calc_squared_distance_and_derivatives p2 p1 x box
            cutoff2 0 (fun _ => 0)).param_val)) with hcc
  subst hc
  subst hθ
  obtain ⟨hlo, hhi⟩ : -1 + VERYSMALL_F ≤ cc ∧ cc ≤ 1 - VERYSMALL_F := hcc ▸ check_cos_mem _
  have hε : (0:ℝ) < VERYSMALL_F := by norm_num [VERYSMALL_F]
  have hε1 : VERYSMALL_F < 1 := by norm_num [VERYSMALL_F]
  have hθpos : 0 < Real.arccos cc := Real.arccos_pos.mpr (by linarith)
  have hθlt : Real.arccos cc < Real.pi :=
    lt_of_le_of_ne (Real.arccos_le_pi _) fun h =>
      absurd (Real.arccos_eq_pi.mp h) (by push_neg; linarith)
  have hsin : 0 < Real.sin (Real.arccos cc) := Real.sin_pos_of_pos_of_lt_pi hθpos hθlt
  have hsq : cc ^ 2 ≤ (1 - VERYSMALL_F) ^ 2 := by nlinarith
  have hlower : Real.sin (Real.arccos (1 - VERYSMALL_F)) ≤ Real.sin (Real.arccos cc) := by
    rw [Real.sin_arccos, Real.sin_arccos]
    exact Real.sqrt_le_sqrt (by nlinarith)
  have hεsin : VERYSMALL_F < Real.sin (Real.arccos cc) := by
    rw [Real.sin_arccos]
    refine (Real.lt_sqrt (le_of_lt hε)).mpr ?_
    norm_num [VERYSMALL_F] at hsq ⊢
    nlinarith
  refine ⟨hθpos, hθlt, hsin, hlower,
    mul_ne_zero (mul_ne_zero h20 h21) (ne_of_gt hsin),
    mul_ne_zero (mul_ne_zero h20 h20) (ne_of_gt hsin),
    mul_ne_zero (mul_ne_zero h21 h21) (ne_of_gt hsin), ?_, ?_⟩
  · have hs0 : ¬(Real.sin (Real.arccos cc) < 0 ∧
        Real.sin (Real.arccos cc) > -VERYSMALL_F) := fun h => by
      rcases h with ⟨h1, _⟩; linarith
    have hs1 : ¬(Real.sin (Real.arccos cc) > 0 ∧
        Real.sin (Real.arccos cc) < VERYSMALL_F) := fun h => by
      rcases h with ⟨_, h2⟩; linarith
    unfold check_sine
    rw [if_neg hs0, if_neg hs1]
  · intro hw
    by_cases c20 : cutoff2 < calc_squared_distance p2 p0 x box
    · rw [condAngle_false p0 p1 p2 x box cutoff2 param0 d0 d1 (Or.inl c20)] at hw
      simp at hw
    by_cases c21 : cutoff2 < calc_squared_distance p2 p1 x box
    · rw [condAngle_false p0 p1 p2 x box cutoff2 param0 d0 d1 (Or.inr c21)] at hw
      simp at hw
    rw [(condAngle_true p0 p1 p2 x box cutoff2 param0 d0 d1 c20 c21).2]
    have e20 : conditionally_calc_squared_distance_and_derivatives p2 p0 x box cutoff2 0
        (fun _ => 0) = ⟨true, calc_squared_distance p2 p0 x box,
          fun i => 2 * subtract_min_image_vectors p2 p0 x box i⟩ := by
      rw [condSq_eq, if_neg c20]
    have e21 : conditionally_calc_squared_distance_and_derivatives p2 p1 x box cutoff2 0
        (fun _ => 0) = ⟨true, calc_squared_distance p2 p1 x box,
          fun i => 2 * subtract_min_image_vectors p2 p1 x box i⟩ := by
      rw [condSq_eq, if_neg c21]
    rw [hcc, e20, e21]

/-- The concrete clamped cosine appearing in the angle computation on the
right-angle configuration `posB` (it evaluates to `0`). -/
noncomputable def cC10 : ℝ := check_cos (dot_product
    (conditionally_calc_squared_distance_and_derivatives 2 0 posB box10 10 0
      (fun _ => 0)).deriv0
    (conditionally_calc_squared_distance_and_derivatives 2 1 posB box10 10 0
      (fun _ => 0)).deriv0
    / (4 * Real.sqrt (conditionally_calc_squared_distance_and_derivatives 2 0 posB box10 10 0
          (fun _ => 0)).param_val
       * Real.sqrt (conditionally_calc_squared_distance_and_derivatives 2 1 posB box10 10 0
          (fun _ => 0)).param_val))

/-- Witness for C10 on the concrete right-angle configuration. -/
theorem C10_witness :
    0 < Real.arccos cC10 ∧ Real.arccos cC10 < Real.pi
    ∧ 0 < Real.sin (Real.arccos cC10)
    ∧ Real.sin (Real.arccos (1 - VERYSMALL_F)) ≤ Real.sin (Real.arccos cC10)
    ∧ Real.sqrt (conditionally_calc_squared_distance_and_derivatives 2 0 posB box10 10 0
          (fun _ => 0)).param_val
        * Real.sqrt (conditionally_calc_squared_distance_and_derivatives 2 1 posB box10 10 0
          (fun _ => 0)).param_val * Real.sin (Real.arccos cC10) ≠ 0
    ∧ Real.sqrt (conditionally_calc_squared_distance_and_derivatives 2 0 posB box10 10 0
          (fun _ => 0)).param_val
        * Real.sqrt (conditionally_calc_squared_distance_and_derivatives 2 0 posB box10 10 0
          (fun _ => 0)).param_val * Real.sin (Real.arccos cC10) ≠ 0
    ∧ Real.sqrt (conditionally_calc_squared_distance_and_derivatives 2 1 posB box10 10 0
          (fun _ => 0)).param_val
        * Real.sqrt (conditionally_calc_squared_distance_and_derivatives 2 1 posB box10 10 0
          (fun _ => 0)).param_val * Real.sin (Real.arccos cC10) ≠ 0
    ∧ check_sine (Real.sin (Real.arccos cC10)) = Real.sin (Real.arccos cC10)
    ∧ ((conditionally_calc_angle_and_derivatives 0 1 2 posB box10 10 0
          vz vz).within_cutoff = true →
        (conditionally_calc_angle_and_derivatives 0 1 2 posB box10 10 0
          vz vz).param_val = Real.arccos cC10 * DEGREES_PER_RADIAN) := by
  have h20 : Real.sqrt (conditionally_calc_squared_distance_and_derivatives 2 0 posB box10
      10 0 (fun _ => 0)).param_val ≠ 0 := by
    rw [condSq_eq, if_neg (by
      norm_num [calc_squared_distance, subtract_min_image_vectors, posB, box10])]
    norm_num [calc_squared_distance, subtract_min_image_vectors, posB, box10]
  have h21 : Real.sqrt (conditionally_calc_squared_distance_and_derivatives 2 1 posB box10
      10 0 (fun _ => 0)).param_val ≠ 0 := by
    rw [condSq_eq, if_neg (by
      norm_num [calc_squared_distance, subtract_min_image_vectors, posB, box10])]
    norm_num [calc_squared_distance, subtract_min_image_vectors, posB, box10]
  exact C10_angle_sine_never_zero 0 1 2 posB box10 10 0 vz vz cC10
    (Real.arccos cC10) rfl rfl h20 h21

/-! ### C7: minimum-image displacement component bounds -/

/-- C7: per axis, provided the raw difference is at most one box length in
magnitude and the half-length is nonnegative, the single-step wrap puts the
displacement component into `[-half, +half]`. -/
theorem C7_min_image_component_bounds (a b : ℕ) (x : ℕ → Vec3) (box : Vec3) (i : Fin 3)
    (hbox : 0 ≤ box i) (hone : |x b i - x a i| ≤ 2 * box i) :
    - box i ≤ subtract_min_image_vectors a b x box i
    ∧ subtract_min_image_vectors a b x box i ≤ box i := by
  rw [abs_le] at hone
  unfold subtract_min_image_vectors
  split_ifs with h1 h2 <;> constructor <;> linarith

/-- Particles at `0` and `5` on the first axis (the spec's wrap scenario). -/
noncomputable def posC7 : ℕ → Vec3 := fun n => if n = 0 then ![0, 0, 0] else ![5, 0, 0]

/-- A box with half-length `3` on every axis. -/
noncomputable def boxC7 : Vec3 := ![3, 3, 3]

/-- Witness for C7: the spec's scenario — coordinates `0` and `5`, half-length
`3`, wrapped displacement `-1`, minimum-image distance `1` (not `5`). -/
theorem C7_witness :
    (0:ℝ) ≤ boxC7 0
    ∧ |posC7 1 0 - posC7 0 0| ≤ 2 * boxC7 0
    ∧ (- boxC7 0 ≤ subtract_min_image_vectors 0 1 posC7 boxC7 0
       ∧ subtract_min_image_vectors 0 1 posC7 boxC7 0 ≤ boxC7 0)
    ∧ subtract_min_image_vectors 0 1 posC7 boxC7 0 = -1
    ∧ calc_distance 0 1 posC7 boxC7 = 1 := by
  refine ⟨by norm_num [boxC7], by norm_num [posC7, boxC7],
    C7_min_image_component_bounds 0 1 posC7 boxC7 0 (by norm_num [boxC7])
      (by norm_num [posC7, boxC7]), ?_, ?_⟩
  · norm_num [subtract_min_image_vectors, posC7, boxC7]
  · rw [calc_distance]
    norm_num [calc_squared_distance, subtract_min_image_vectors, posC7, boxC7]

/-! ### C9: rigid-motion behaviour -/

/-- No minimum-image wrap fires for the pair `(a, b)`: every raw per-axis
difference already lies within the half-lengths. -/
def no_wrap (a b : ℕ) (x : ℕ → Vec3) (box : Vec3) : Prop :=
  ∀ i, |x b i - x a i| ≤ box i

/-- When no wrap fires, the minimum-image displacement is the raw difference. -/
lemma sub_min_image_of_small (a b : ℕ) (x : ℕ → Vec3) (box : Vec3)
    (h : no_wrap a b x box) :
    subtract_min_image_vectors a b x box = fun i => x b i - x a i := by
  funext i
  obtain ⟨h1, h2⟩ := abs_le.mp (h i)
  unfold subtract_min_image_vectors
  rw [if_neg (not_lt.mpr h2), if_neg (not_lt.mpr h1)]

/-- `dot_product` agrees with Mathlib's `Matrix.dotProduct`. -/
lemma dot_product_eq_dotProduct (u v : Vec3) : dot_product u v = Matrix.dotProduct u v := by
  simp [dot_product, Matrix.dotProduct, Fin.sum_univ_three]

/-- Orthogonal matrices preserve `dot_product`. -/
lemma dot_mulVec_invariant (R : Matrix (Fin 3) (Fin 3) ℝ) (h : R.transpose * R = 1) (u v : Vec3) :
    dot_product (R.mulVec u) (R.mulVec v) = dot_product u v := by
  rw [dot_product_eq_dotProduct, dot_product_eq_dotProduct, Matrix.dotProduct_mulVec,
    ← Matrix.mulVec_transpose, Matrix.mulVec_mulVec, h, Matrix.one_mulVec]

/-- The scalar triple product scales by the determinant under any linear map. -/
lemma triple_mulVec (R : Matrix (Fin 3) (Fin 3) ℝ) (u v w : Vec3) :
    dot_product (cross_product (R.mulVec u) (R.mulVec v)) (R.mulVec w)
      = R.det * dot_product (cross_product u v) w := by
  simp [cross_product, dot_product, Matrix.mulVec, Matrix.dotProduct, Fin.sum_univ_three,
    Matrix.det_fin_three]
  ring

/-- Pointwise: rotated differences are the rotation of the difference. -/
lemma mulVec_sub_pt (R : Matrix (Fin 3) (Fin 3) ℝ) (u v : Vec3) :
    (fun i => R.mulVec u i - R.mulVec v i) = R.mulVec (fun j => u j - v j) := by
  funext i
  simp [Matrix.mulVec, Matrix.dotProduct, Fin.sum_univ_three]
  ring

/-- With no wrap on either side, the displacement of the rotated
configuration is the rotated displacement. -/
lemma sub_min_image_rotated (R : Matrix (Fin 3) (Fin 3) ℝ) (a b : ℕ) (x : ℕ → Vec3)
    (box : Vec3) (hx : no_wrap a b x box)
    (hx' : no_wrap a b (fun n => R.mulVec (x n)) box) :
    subtract_min_image_vectors a b (fun n => R.mulVec (x n)) box
      = R.mulVec (subtract_min_image_vectors a b x box) := by
  rw [sub_min_image_of_small a b (fun n => R.mulVec (x n)) box hx',
    sub_min_image_of_small a b x box hx]
  exact mulVec_sub_pt R (x b) (x a)

/-- Translations drop out of the minimum-image displacement entirely. -/
lemma sub_min_image_translated (t : Vec3) (a b : ℕ) (x : ℕ → Vec3) (box : Vec3) :
    subtract_min_image_vectors a b (fun n i => x n i + t i) box
      = subtract_min_image_vectors a b x box := by
  funext i
  simp only [subtract_min_image_vectors]
  have hcancel : x b i + t i - (x a i + t i) = x b i - x a i := by ring
  rw [hcancel]

/-- Squared distance is unchanged by translation. -/
lemma calc_sq_translated (t : Vec3) (a b : ℕ) (x : ℕ → Vec3) (box : Vec3) :
    calc_squared_distance a b (fun n i => x n i + t i) box
      = calc_squared_distance a b x box := by
  rw [calc_squared_distance_eq_dot, calc_squared_distance_eq_dot, sub_min_image_translated]

/-- Squared distance is unchanged by a no-wrap orthogonal rotation. -/
lemma calc_sq_rotated (R : Matrix (Fin 3) (Fin 3) ℝ) (hR : R.transpose * R = 1) (a b : ℕ)
    (x : ℕ → Vec3) (box : Vec3) (hx : no_wrap a b x box)
    (hx' : no_wrap a b (fun n => R.mulVec (x n)) box) :
    calc_squared_distance a b (fun n => R.mulVec (x n)) box
      = calc_squared_distance a b x box := by
  rw [calc_squared_distance_eq_dot, calc_squared_distance_eq_dot,
    sub_min_image_rotated R a b x box hx hx', dot_mulVec_invariant R hR]

/-- Doubling both arguments multiplies `dot_product` by four. -/
lemma dot_two_smul (u v : Vec3) :
    dot_product (fun i => 2 * u i) (fun i => 2 * v i) = 4 * dot_product u v := by
  simp only [dot_product]
  ring

/-- `dot_product` with the zero vector on the left vanishes. -/
lemma dot_zero_left (v : Vec3) : dot_product (fun _ => 0) v = 0 := by
  simp [dot_product]

/-- Cross products are equivariant under proper rotations: for orthogonal
`R` with determinant `1`, `R` commutes with the source's `cross_product`
(shown by pairing both sides against the basis `R (R.transpose eᵢ)`). -/
lemma cross_mulVec (R : Matrix (Fin 3) (Fin 3) ℝ) (hR : R.transpose * R = 1)
    (hdet : R.det = 1) (u v : Vec3) :
    cross_product (R.mulVec u) (R.mulVec v) = R.mulVec (cross_product u v) := by
  have hRR : R * R.transpose = 1 := Matrix.mul_eq_one_comm.mp hR
  have key : ∀ w : Vec3,
      dot_product (cross_product (R.mulVec u) (R.mulVec v)) (R.mulVec w)
        = dot_product (R.mulVec (cross_product u v)) (R.mulVec w) := by
    intro w
    rw [triple_mulVec, hdet, one_mul, dot_mulVec_invariant R hR]
  have hb : ∀ e : Vec3, R.mulVec (R.transpose.mulVec e) = e := by
    intro e
    rw [Matrix.mulVec_mulVec, hRR, Matrix.one_mulVec]
  have k0 := key (R.transpose.mulVec ![1, 0, 0])
  have k1 := key (R.transpose.mulVec ![0, 1, 0])
  have k2 := key (R.transpose.mulVec ![0, 0, 1])
  rw [hb] at k0 k1 k2
  funext i
  fin_cases i
  · simpa [dot_product] using k0
  · simpa [dot_product] using k1
  · simpa [dot_product] using k2

/-- Translation invariance of the conditional squared-distance function
(whole result, including the derivative buffer behaviour). -/
lemma condSq_translated (t : Vec3) (a b : ℕ) (x : ℕ → Vec3) (box : Vec3)
    (cutoff2 param0 : ℝ) (d0 : Vec3) :
    conditionally_calc_squared_distance_and_derivatives a b (fun n i => x n i + t i) box
        cutoff2 param0 d0
      = conditionally_calc_squared_distance_and_derivatives a b x box cutoff2 param0 d0 := by
  simp only [conditionally_calc_squared_distance_and_derivatives, sub_min_image_translated]

/-- Translation invariance of the conditional distance function. -/
lemma condDist_translated (t : Vec3) (a b : ℕ) (x : ℕ → Vec3) (box : Vec3)
    (cutoff2 param0 : ℝ) (d0 : Vec3) :
    conditionally_calc_distance_and_derivatives a b (fun n i => x n i + t i) box
        cutoff2 param0 d0
      = conditionally_calc_distance_and_derivatives a b x box cutoff2 param0 d0 := by
  simp only [conditionally_calc_distance_and_derivatives, condSq_translated]

/-- Translation invariance of the conditional angle function. -/
lemma condAngle_translated (t : Vec3) (p0 p1 p2 : ℕ) (x : ℕ → Vec3) (box : Vec3)
    (cutoff2 param0 : ℝ) (d0 d1 : Vec3) :
    conditionally_calc_angle_and_derivatives p0 p1 p2 (fun n i => x n i + t i) box
        cutoff2 param0 d0 d1
      = conditionally_calc_angle_and_derivatives p0 p1 p2 x box cutoff2 param0 d0 d1 := by
  simp only [conditionally_calc_angle_and_derivatives, condSq_translated]

/-- Translation invariance of the conditional dihedral function. -/
lemma condDihedral_translated (t : Vec3) (p0 p1 p2 p3 : ℕ) (x : ℕ → Vec3) (box : Vec3)
    (cutoff2 param0 : ℝ) (d0 d1 d2 : Vec3) :
    conditionally_calc_dihedral_and_derivatives p0 p1 p2 p3 (fun n i => x n i + t i) box
        cutoff2 param0 d0 d1 d2
      = conditionally_calc_dihedral_and_derivatives p0 p1 p2 p3 x box cutoff2 param0
          d0 d1 d2 := by
  simp only [conditionally_calc_dihedral_and_derivatives, sub_min_image_translated]

/-- Rotation behaviour of the conditional squared-distance function under
no-wrap: same boolean, same value, gradient rotated by `R` when in range. -/
lemma condSq_rotated (R : Matrix (Fin 3) (Fin 3) ℝ) (hR : R.transpose * R = 1)
    (a b : ℕ) (x : ℕ → Vec3) (box : Vec3) (cutoff2 param0 param0' : ℝ) (d0 d0' : Vec3)
    (hx : no_wrap a b x box) (hx' : no_wrap a b (fun n => R.mulVec (x n)) box) :
    (conditionally_calc_squared_distance_and_derivatives a b (fun n => R.mulVec (x n)) box
        cutoff2 param0' d0').within_cutoff
      = (conditionally_calc_squared_distance_and_derivatives a b x box cutoff2 param0
          d0).within_cutoff
    ∧ (conditionally_calc_squared_distance_and_derivatives a b (fun n => R.mulVec (x n)) box
        cutoff2 param0' d0').param_val
      = (conditionally_calc_squared_distance_and_derivatives a b x box cutoff2 param0
          d0).param_val
    ∧ ((conditionally_calc_squared_distance_and_derivatives a b x box cutoff2 param0
          d0).within_cutoff = true →
        (conditionally_calc_squared_distance_and_derivatives a b (fun n => R.mulVec (x n)) box
          cutoff2 param0' d0').deriv0
          = R.mulVec (conditionally_calc_squared_distance_and_derivatives a b x box cutoff2
              param0 d0).deriv0) := by
  rw [condSq_eq, condSq_eq, calc_sq_rotated R hR a b x box hx hx',
    sub_min_image_rotated R a b x box hx hx']
  by_cases h : calc_squared_distance a b x box > cutoff2
  · rw [if_pos h, if_pos h]
    exact ⟨rfl, rfl, fun hw => by simp at hw⟩
  · rw [if_neg h, if_neg h]
    refine ⟨rfl, rfl, fun _ => funext fun i => ?_⟩
    simp only [Matrix.mulVec, Matrix.dotProduct, Fin.sum_univ_three]
    ring

/-- Rotation behaviour of the conditional distance function under no-wrap:
same boolean, same value, gradient rotated by `R` when in range. -/
lemma condDist_rotated (R : Matrix (Fin 3) (Fin 3) ℝ) (hR : R.transpose * R = 1)
    (a b : ℕ) (x : ℕ → Vec3) (box : Vec3) (cutoff2 param0 param0' : ℝ) (d0 d0' : Vec3)
    (hx : no_wrap a b x box) (hx' : no_wrap a b (fun n => R.mulVec (x n)) box) :
    (conditionally_calc_distance_and_derivatives a b (fun n => R.mulVec (x n)) box
        cutoff2 param0' d0').within_cutoff
      = (conditionally_calc_distance_and_derivatives a b x box cutoff2 param0
          d0).within_cutoff
    ∧ (conditionally_calc_distance_and_derivatives a b (fun n => R.mulVec (x n)) box
        cutoff2 param0' d0').param_val
      = (conditionally_calc_distance_and_derivatives a b x box cutoff2 param0 d0).param_val
    ∧ ((conditionally_calc_distance_and_derivatives a b x box cutoff2 param0
          d0).within_cutoff = true →
        (conditionally_calc_distance_and_derivatives a b (fun n => R.mulVec (x n)) box
          cutoff2 param0' d0').deriv0
          = R.mulVec (conditionally_calc_distance_and_derivatives a b x box cutoff2
              param0 d0).deriv0) := by
  rw [condDist_eq, condDist_eq, calc_sq_rotated R hR a b x box hx hx',
    sub_min_image_rotated R a b x box hx hx']
  by_cases h : calc_squared_distance a b x box > cutoff2
  · rw [if_pos h, if_pos h]
    exact ⟨rfl, rfl, fun hw => by simp at hw⟩
  · rw [if_neg h, if_neg h]
    refine ⟨rfl, rfl, fun _ => funext fun i => ?_⟩
    simp only [Matrix.mulVec, Matrix.dotProduct, Fin.sum_univ_three]
    ring

/-- The value of `calc_angle` is unchanged by a no-wrap orthogonal rotation,
on every branch of the internal `MAXFLOAT` test (the test outcome itself is
rotation-invariant, and the out-of-range scratch contents are the zero
vector on both sides). -/
lemma calc_angle_rotated (R : Matrix (Fin 3) (Fin 3) ℝ) (hR : R.transpose * R = 1)
    (p0 p1 p2 : ℕ) (x : ℕ → Vec3) (box : Vec3)
    (h20w : no_wrap p2 p0 x box) (h20w' : no_wrap p2 p0 (fun n => R.mulVec (x n)) box)
    (h21w : no_wrap p2 p1 x box) (h21w' : no_wrap p2 p1 (fun n => R.mulVec (x n)) box) :
    calc_angle p0 p1 p2 (fun n => R.mulVec (x n)) box = calc_angle p0 p1 p2 x box := by
  simp only [calc_angle, condSq_eq,
    calc_sq_rotated R hR p2 p0 x box h20w h20w',
    calc_sq_rotated R hR p2 p1 x box h21w h21w',
    sub_min_image_rotated R p2 p0 x box h20w h20w',
    sub_min_image_rotated R p2 p1 x box h21w h21w']
  by_cases h20 : calc_squared_distance p2 p0 x box > MAXFLOAT
  · by_cases h21 : calc_squared_distance p2 p1 x box > MAXFLOAT
    · rw [if_pos h20, if_pos h20, if_pos h21, if_pos h21]
    · rw [if_pos h20, if_pos h20, if_neg h21, if_neg h21]
      simp only [dot_zero_left]
  · by_cases h21 : calc_squared_distance p2 p1 x box > MAXFLOAT
    · rw [if_neg h20, if_neg h20, if_pos h21, if_pos h21]
      simp only [dot_product]
      norm_num
    · rw [if_neg h20, if_neg h20, if_neg h21, if_neg h21]
      simp only [dot_two_smul, dot_mulVec_invariant R hR]

/-- The clamped cosine computed on the in-range branch of the angle
functions (folded out of `conditionally_calc_angle_and_derivatives`). -/
noncomputable def angle_cos_theta (p0 p1 p2 : ℕ) (x : ℕ → Vec3) (box : Vec3) : ℝ :=
  check_cos (dot_product
    (fun i => 2 * subtract_min_image_vectors p2 p0 x box i)
    (fun i => 2 * subtract_min_image_vectors p2 p1 x box i)
    / (4 * Real.sqrt (calc_squared_distance p2 p0 x box)
       * Real.sqrt (calc_squared_distance p2 p1 x box)))

/-- The full result of the conditional angle function on the in-range
branch, with every internal quantity written out. -/
lemma condAngle_true_eq (p0 p1 p2 : ℕ) (x : ℕ → Vec3) (box : Vec3)
    (cutoff2 param0 : ℝ) (d0 d1 : Vec3)
    (h20 : ¬ cutoff2 < calc_squared_distance p2 p0 x box)
    (h21 : ¬ cutoff2 < calc_squared_distance p2 p1 x box) :
    conditionally_calc_angle_and_derivatives p0 p1 p2 x box cutoff2 param0 d0 d1
      = ⟨true,
         Real.arccos (angle_cos_theta p0 p1 p2 x box) * DEGREES_PER_RADIAN,
         fun i => 0.5 * ((2 * subtract_min_image_vectors p2 p1 x box i)
             * (1 / (Real.sqrt (calc_squared_distance p2 p0 x box)
                 * Real.sqrt (calc_squared_distance p2 p1 x box)
                 * Real.sin (Real.arccos (angle_cos_theta p0 p1 p2 x box))))
           - (angle_cos_theta p0 p1 p2 x box
               / (Real.sqrt (calc_squared_distance p2 p0 x box)
                 * Real.sqrt (calc_squared_distance p2 p0 x box)
                 * Real.sin (Real.arccos (angle_cos_theta p0 p1 p2 x box))))
             * (2 * subtract_min_image_vectors p2 p0 x box i)),
         fun i => 0.5 * ((2 * subtract_min_image_vectors p2 p0 x box i)
             * (1 / (Real.sqrt (calc_squared_distance p2 p0 x box)
                 * Real.sqrt (calc_squared_distance p2 p1 x box)
                 * Real.sin (Real.arccos (angle_cos_theta p0 p1 p2 x box))))
           - (angle_cos_theta p0 p1 p2 x box
               / (Real.sqrt (calc_squared_distance p2 p1 x box)
                 * Real.sqrt (calc_squared_distance p2 p1 x box)
                 * Real.sin (Real.arccos (angle_cos_theta p0 p1 p2 x box))))
             * (2 * subtract_min_image_vectors p2 p1 x box i))⟩ := by
  simp only [conditionally_calc_angle_and_derivatives, condSq_eq, if_neg h20, if_neg h21,
    angle_cos_theta]
  simp

/-- The clamped in-range cosine is unchanged by a no-wrap orthogonal
rotation. -/
lemma angle_cos_theta_rotated (R : Matrix (Fin 3) (Fin 3) ℝ) (hR : R.transpose * R = 1)
    (p0 p1 p2 : ℕ) (x : ℕ → Vec3) (box : Vec3)
    (h20w : no_wrap p2 p0 x box) (h20w' : no_wrap p2 p0 (fun n => R.mulVec (x n)) box)
    (h21w : no_wrap p2 p1 x box) (h21w' : no_wrap p2 p1 (fun n => R.mulVec (x n)) box) :
    angle_cos_theta p0 p1 p2 (fun n => R.mulVec (x n)) box
      = angle_cos_theta p0 p1 p2 x box := by
  simp only [angle_cos_theta,
    calc_sq_rotated R hR p2 p0 x box h20w h20w',
    calc_sq_rotated R hR p2 p1 x box h21w h21w',
    sub_min_image_rotated R p2 p0 x box h20w h20w',
    sub_min_image_rotated R p2 p1 x box h21w h21w',
    dot_two_smul, dot_mulVec_invariant R hR]

/-- Rotation behaviour of the conditional angle function under no-wrap: same
boolean, and on success the same value with both gradients rotated by `R`. -/
lemma condAngle_rotated (R : Matrix (Fin 3) (Fin 3) ℝ) (hR : R.transpose * R = 1)
    (p0 p1 p2 : ℕ) (x : ℕ → Vec3) (box : Vec3) (cutoff2 param0 param0' : ℝ)
    (d0 d1 d0' d1' : Vec3)
    (h20w : no_wrap p2 p0 x box) (h20w' : no_wrap p2 p0 (fun n => R.mulVec (x n)) box)
    (h21w : no_wrap p2 p1 x box) (h21w' : no_wrap p2 p1 (fun n => R.mulVec (x n)) box) :
    (conditionally_calc_angle_and_derivatives p0 p1 p2 (fun n => R.mulVec (x n)) box
        cutoff2 param0' d0' d1').within_cutoff
      = (conditionally_calc_angle_and_derivatives p0 p1 p2 x box cutoff2 param0
          d0 d1).within_cutoff
    ∧ ((conditionally_calc_angle_and_derivatives p0 p1 p2 x box cutoff2 param0
          d0 d1).within_cutoff = true →
        (conditionally_calc_angle_and_derivatives p0 p1 p2 (fun n => R.mulVec (x n)) box
          cutoff2 param0' d0' d1').param_val
          = (conditionally_calc_angle_and_derivatives p0 p1 p2 x box cutoff2 param0
              d0 d1).param_val
        ∧ (conditionally_calc_angle_and_derivatives p0 p1 p2 (fun n => R.mulVec (x n)) box
            cutoff2 param0' d0' d1').deriv0
          = R.mulVec (conditionally_calc_angle_and_derivatives p0 p1 p2 x box cutoff2
              param0 d0 d1).deriv0
        ∧ (conditionally_calc_angle_and_derivatives p0 p1 p2 (fun n => R.mulVec (x n)) box
            cutoff2 param0' d0' d1').deriv1
          = R.mulVec (conditionally_calc_angle_and_derivatives p0 p1 p2 x box cutoff2
              param0 d0 d1).deriv1) := by
  have e20 := calc_sq_rotated R hR p2 p0 x box h20w h20w'
  have e21 := calc_sq_rotated R hR p2 p1 x box h21w h21w'
  by_cases h20 : cutoff2 < calc_squared_distance p2 p0 x box
  · have h20r : cutoff2 < calc_squared_distance p2 p0 (fun n => R.mulVec (x n)) box := by
      rw [e20]; exact h20
    rw [condAngle_false p0 p1 p2 (fun n => R.mulVec (x n)) box cutoff2 param0' d0' d1'
        (Or.inl h20r),
      condAngle_false p0 p1 p2 x box cutoff2 param0 d0 d1 (Or.inl h20)]
    exact ⟨rfl, fun hw => by simp at hw⟩
  by_cases h21 : cutoff2 < calc_squared_distance p2 p1 x box
  · have h21r : cutoff2 < calc_squared_distance p2 p1 (fun n => R.mulVec (x n)) box := by
      rw [e21]; exact h21
    rw [condAngle_false p0 p1 p2 (fun n => R.mulVec (x n)) box cutoff2 param0' d0' d1'
        (Or.inr h21r),
      condAngle_false p0 p1 p2 x box cutoff2 param0 d0 d1 (Or.inr h21)]
    exact ⟨rfl, fun hw => by simp at hw⟩
  have h20r : ¬ cutoff2 < calc_squared_distance p2 p0 (fun n => R.mulVec (x n)) box := by
    rw [e20]; exact h20
  have h21r : ¬ cutoff2 < calc_squared_distance p2 p1 (fun n => R.mulVec (x n)) box := by
    rw [e21]; exact h21
  rw [condAngle_true_eq p0 p1 p2 (fun n => R.mulVec (x n)) box cutoff2 param0' d0' d1'
      h20r h21r,
    condAngle_true_eq p0 p1 p2 x box cutoff2 param0 d0 d1 h20 h21]
  simp only [angle_cos_theta_rotated R hR p0 p1 p2 x box h20w h20w' h21w h21w', e20, e21,
    sub_min_image_rotated R p2 p0 x box h20w h20w',
    sub_min_image_rotated R p2 p1 x box h21w h21w']
  refine ⟨trivial, fun _ => ⟨trivial, funext fun i => ?_, funext fun i => ?_⟩⟩ <;>
    simp only [Matrix.mulVec, Matrix.dotProduct, Fin.sum_univ_three] <;> ring

/-- A proper rigid rotation by the `(3/5, 4/5)` angle about the third axis. -/
noncomputable def rotC9 : Matrix (Fin 3) (Fin 3) ℝ :=
  !![3/5, -4/5, 0; 4/5, 3/5, 0; 0, 0, 1]

/-- `rotC9` is orthogonal. -/
lemma rotC9_orthogonal : rotC9.transpose * rotC9 = 1 := by
  ext i j
  rw [Matrix.mul_apply, Fin.sum_univ_three]
  simp only [Matrix.transpose_apply]
  fin_cases i <;> fin_cases j <;> norm_num [rotC9, Matrix.one_apply, Fin.ext_iff]

/-- `rotC9` is orientation-preserving. -/
lemma rotC9_det : rotC9.det = 1 := by
  simp [rotC9, Matrix.det_fin_three]
  norm_num

/-- C9 (counterexample): applying the rigid rotation `rotC9` (orthogonal,
determinant `1`) to both particles of the spec's wrap scenario changes the
reported minimum-image distance from `1` to `√13`: axis-aligned wrapping is
not rotation-equivariant, so the claim fails as stated. -/
theorem C9_rotation_changes_wrapped_distance :
    rotC9.transpose * rotC9 = 1
    ∧ rotC9.det = 1
    ∧ calc_distance 0 1 posC7 boxC7 = 1
    ∧ calc_distance 0 1 (fun n => rotC9.mulVec (posC7 n)) boxC7 = Real.sqrt 13
    ∧ calc_distance 0 1 (fun n => rotC9.mulVec (posC7 n)) boxC7
        ≠ calc_distance 0 1 posC7 boxC7 := by
  have h1 : calc_distance 0 1 posC7 boxC7 = 1 := by
    rw [calc_distance]
    norm_num [calc_squared_distance, subtract_min_image_vectors, posC7, boxC7]
  have h13 : calc_distance 0 1 (fun n => rotC9.mulVec (posC7 n)) boxC7 = Real.sqrt 13 := by
    rw [calc_distance]
    norm_num [calc_squared_distance, subtract_min_image_vectors, posC7, boxC7, rotC9,
      Matrix.mulVec, Matrix.dotProduct, Fin.sum_univ_three]
  refine ⟨rotC9_orthogonal, rotC9_det, h1, h13, ?_⟩
  rw [h1, h13]
  intro he
  have hlt : (1:ℝ) < Real.sqrt 13 := by
    rw [← Real.sqrt_one]
    exact Real.sqrt_lt_sqrt (by norm_num) (by norm_num)
  rw [he] at hlt
  exact lt_irrefl _ hlt

/-- The value of `calc_dihedral` is unchanged by a no-wrap proper rotation. -/
lemma calc_dihedral_rotated (R : Matrix (Fin 3) (Fin 3) ℝ) (hR : R.transpose * R = 1)
    (hdet : R.det = 1) (p0 p1 p2 p3 : ℕ) (x : ℕ → Vec3) (box : Vec3)
    (h30 : no_wrap p3 p0 x box) (h30' : no_wrap p3 p0 (fun n => R.mulVec (x n)) box)
    (h32 : no_wrap p3 p2 x box) (h32' : no_wrap p3 p2 (fun n => R.mulVec (x n)) box)
    (h21 : no_wrap p2 p1 x box) (h21' : no_wrap p2 p1 (fun n => R.mulVec (x n)) box) :
    calc_dihedral p0 p1 p2 p3 (fun n => R.mulVec (x n)) box
      = calc_dihedral p0 p1 p2 p3 x box := by
  simp only [calc_dihedral,
    sub_min_image_rotated R p3 p0 x box h30 h30',
    sub_min_image_rotated R p3 p2 x box h32 h32',
    sub_min_image_rotated R p2 p1 x box h21 h21',
    cross_mulVec R hR hdet, dot_mulVec_invariant R hR]

/-- Rotation behaviour of the conditional dihedral function under no-wrap:
same value, and all three gradients rotated by `R`. -/
lemma condDihedral_rotated (R : Matrix (Fin 3) (Fin 3) ℝ) (hR : R.transpose * R = 1)
    (hdet : R.det = 1) (p0 p1 p2 p3 : ℕ) (x : ℕ → Vec3) (box : Vec3)
    (cutoff2 param0 param0' : ℝ) (d0 d1 d2 d0' d1' d2' : Vec3)
    (h30 : no_wrap p3 p0 x box) (h30' : no_wrap p3 p0 (fun n => R.mulVec (x n)) box)
    (h32 : no_wrap p3 p2 x box) (h32' : no_wrap p3 p2 (fun n => R.mulVec (x n)) box)
    (h21 : no_wrap p2 p1 x box) (h21' : no_wrap p2 p1 (fun n => R.mulVec (x n)) box) :
    (conditionally_calc_dihedral_and_derivatives p0 p1 p2 p3 (fun n => R.mulVec (x n)) box
        cutoff2 param0' d0' d1' d2').param_val
      = (conditionally_calc_dihedral_and_derivatives p0 p1 p2 p3 x box cutoff2 param0
          d0 d1 d2).param_val
    ∧ (conditionally_calc_dihedral_and_derivatives p0 p1 p2 p3 (fun n => R.mulVec (x n)) box
        cutoff2 param0' d0' d1' d2').deriv0
      = R.mulVec (conditionally_calc_dihedral_and_derivatives p0 p1 p2 p3 x box cutoff2
          param0 d0 d1 d2).deriv0
    ∧ (conditionally_calc_dihedral_and_derivatives p0 p1 p2 p3 (fun n => R.mulVec (x n)) box
        cutoff2 param0' d0' d1' d2').deriv1
      = R.mulVec (conditionally_calc_dihedral_and_derivatives p0 p1 p2 p3 x box cutoff2
          param0 d0 d1 d2).deriv1
    ∧ (conditionally_calc_dihedral_and_derivatives p0 p1 p2 p3 (fun n => R.mulVec (x n)) box
        cutoff2 param0' d0' d1' d2').deriv2
      = R.mulVec (conditionally_calc_dihedral_and_derivatives p0 p1 p2 p3 x box cutoff2
          param0 d0 d1 d2).deriv2 := by
  simp only [conditionally_calc_dihedral_and_derivatives,
    sub_min_image_rotated R p3 p0 x box h30 h30',
    sub_min_image_rotated R p3 p2 x box h32 h32',
    sub_min_image_rotated R p2 p1 x box h21 h21',
    cross_mulVec R hR hdet, dot_mulVec_invariant R hR]
  refine ⟨trivial, funext fun i => ?_, funext fun i => ?_, funext fun i => ?_⟩ <;>
    simp only [Matrix.mulVec, Matrix.dotProduct, Fin.sum_univ_three] <;> ring

/-- C9 (amended): translations always leave the minimum-image displacement —
and hence every distance, angle and dihedral operation, values, booleans and
gradients alike — unchanged; a rigid rotation (orthogonal, and additionally
orientation-preserving for the dihedral) leaves the values and in/out
booleans of all operations unchanged and transforms every computed gradient
by the same rotation, provided the minimum-image wrap fires neither before
nor after the rotation (every raw per-axis displacement of the participating
pairs within the half-lengths). -/
theorem C9_amended_rigid_motion :
    (∀ (t : Vec3) (a b : ℕ) (x : ℕ → Vec3) (box : Vec3),
        subtract_min_image_vectors a b (fun n i => x n i + t i) box
          = subtract_min_image_vectors a b x box)
    ∧ (∀ (t : Vec3) (a b : ℕ) (x : ℕ → Vec3) (box : Vec3),
        calc_distance a b (fun n i => x n i + t i) box = calc_distance a b x box)
    ∧ (∀ (t : Vec3) (p0 p1 p2 : ℕ) (x : ℕ → Vec3) (box : Vec3),
        calc_angle p0 p1 p2 (fun n i => x n i + t i) box = calc_angle p0 p1 p2 x box)
    ∧ (∀ (t : Vec3) (p0 p1 p2 p3 : ℕ) (x : ℕ → Vec3) (box : Vec3),
        calc_dihedral p0 p1 p2 p3 (fun n i => x n i + t i) box
          = calc_dihedral p0 p1 p2 p3 x box)
    ∧ (∀ (t : Vec3) (a b : ℕ) (x : ℕ → Vec3) (box : Vec3) (cutoff2 param0 : ℝ) (d0 : Vec3),
        conditionally_calc_squared_distance_and_derivatives a b (fun n i => x n i + t i) box
            cutoff2 param0 d0
          = conditionally_calc_squared_distance_and_derivatives a b x box cutoff2 param0 d0)
    ∧ (∀ (t : Vec3) (a b : ℕ) (x : ℕ → Vec3) (box : Vec3) (cutoff2 param0 : ℝ) (d0 : Vec3),
        conditionally_calc_distance_and_derivatives a b (fun n i => x n i + t i) box
            cutoff2 param0 d0
          = conditionally_calc_distance_and_derivatives a b x box cutoff2 param0 d0)
    ∧ (∀ (t : Vec3) (p0 p1 p2 : ℕ) (x : ℕ → Vec3) (box : Vec3) (cutoff2 param0 : ℝ)
          (d0 d1 : Vec3),
        conditionally_calc_angle_and_derivatives p0 p1 p2 (fun n i => x n i + t i) box
            cutoff2 param0 d0 d1
          = conditionally_calc_angle_and_derivatives p0 p1 p2 x box cutoff2 param0 d0 d1)
    ∧ (∀ (t : Vec3) (p0 p1 p2 p3 : ℕ) (x : ℕ → Vec3) (box : Vec3) (cutoff2 param0 : ℝ)
          (d0 d1 d2 : Vec3),
        conditionally_calc_dihedral_and_derivatives p0 p1 p2 p3 (fun n i => x n i + t i) box
            cutoff2 param0 d0 d1 d2
          = conditionally_calc_dihedral_and_derivatives p0 p1 p2 p3 x box cutoff2 param0
              d0 d1 d2)
    ∧ (∀ (R : Matrix (Fin 3) (Fin 3) ℝ) (a b : ℕ) (x : ℕ → Vec3) (box : Vec3),
        R.transpose * R = 1 → no_wrap a b x box →
        no_wrap a b (fun n => R.mulVec (x n)) box →
        calc_distance a b (fun n => R.mulVec (x n)) box = calc_distance a b x box)
    ∧ (∀ (R : Matrix (Fin 3) (Fin 3) ℝ) (a b : ℕ) (x : ℕ → Vec3) (box : Vec3)
          (cutoff2 param0 param0' : ℝ) (d0 d0' : Vec3),
        R.transpose * R = 1 → no_wrap a b x box →
        no_wrap a b (fun n => R.mulVec (x n)) box →
        (conditionally_calc_squared_distance_and_derivatives a b (fun n => R.mulVec (x n))
            box cutoff2 param0' d0').within_cutoff
          = (conditionally_calc_squared_distance_and_derivatives a b x box cutoff2 param0
              d0).within_cutoff
        ∧ (conditionally_calc_squared_distance_and_derivatives a b (fun n => R.mulVec (x n))
            box cutoff2 param0' d0').param_val
          = (conditionally_calc_squared_distance_and_derivatives a b x box cutoff2 param0
              d0).param_val
        ∧ ((conditionally_calc_squared_distance_and_derivatives a b x box cutoff2 param0
              d0).within_cutoff = true →
            (conditionally_calc_squared_distance_and_derivatives a b
              (fun n => R.mulVec (x n)) box cutoff2 param0' d0').deriv0
              = R.mulVec (conditionally_calc_squared_distance_and_derivatives a b x box
                  cutoff2 param0 d0).deriv0))
    ∧ (∀ (R : Matrix (Fin 3) (Fin 3) ℝ) (a b : ℕ) (x : ℕ → Vec3) (box : Vec3)
          (cutoff2 param0 param0' : ℝ) (d0 d0' : Vec3),
        R.transpose * R = 1 → no_wrap a b x box →
        no_wrap a b (fun n => R.mulVec (x n)) box →
        (conditionally_calc_distance_and_derivatives a b (fun n => R.mulVec (x n)) box
            cutoff2 param0' d0').within_cutoff
          = (conditionally_calc_distance_and_derivatives a b x box cutoff2 param0
              d0).within_cutoff
        ∧ (conditionally_calc_distance_and_derivatives a b (fun n => R.mulVec (x n)) box
            cutoff2 param0' d0').param_val
          = (conditionally_calc_distance_and_derivatives a b x box cutoff2 param0
              d0).param_val
        ∧ ((conditionally_calc_distance_and_derivatives a b x box cutoff2 param0
              d0).within_cutoff = true →
            (conditionally_calc_distance_and_derivatives a b (fun n => R.mulVec (x n)) box
              cutoff2 param0' d0').deriv0
              = R.mulVec (conditionally_calc_distance_and_derivatives a b x box cutoff2
                  param0 d0).deriv0))
    ∧ (∀ (R : Matrix (Fin 3) (Fin 3) ℝ) (p0 p1 p2 : ℕ) (x : ℕ → Vec3) (box : Vec3),
        R.transpose * R = 1 →
        no_wrap p2 p0 x box → no_wrap p2 p0 (fun n => R.mulVec (x n)) box →
        no_wrap p2 p1 x box → no_wrap p2 p1 (fun n => R.mulVec (x n)) box →
        calc_angle p0 p1 p2 (fun n => R.mulVec (x n)) box = calc_angle p0 p1 p2 x box)
    ∧ (∀ (R : Matrix (Fin 3) (Fin 3) ℝ) (p0 p1 p2 : ℕ) (x : ℕ → Vec3) (box : Vec3)
          (cutoff2 param0 param0' : ℝ) (d0 d1 d0' d1' : Vec3),
        R.transpose * R = 1 →
        no_wrap p2 p0 x box → no_wrap p2 p0 (fun n => R.mulVec (x n)) box →
        no_wrap p2 p1 x box → no_wrap p2 p1 (fun n => R.mulVec (x n)) box →
        (conditionally_calc_angle_and_derivatives p0 p1 p2 (fun n => R.mulVec (x n)) box
            cutoff2 param0' d0' d1').within_cutoff
          = (conditionally_calc_angle_and_derivatives p0 p1 p2 x box cutoff2 param0
              d0 d1).within_cutoff
        ∧ ((conditionally_calc_angle_and_derivatives p0 p1 p2 x box cutoff2 param0
              d0 d1).within_cutoff = true →
            (conditionally_calc_angle_and_derivatives p0 p1 p2 (fun n => R.mulVec (x n)) box
              cutoff2 param0' d0' d1').param_val
              = (conditionally_calc_angle_and_derivatives p0 p1 p2 x box cutoff2 param0
                  d0 d1).param_val
            ∧ (conditionally_calc_angle_and_derivatives p0 p1 p2 (fun n => R.mulVec (x n))
                box cutoff2 param0' d0' d1').deriv0
              = R.mulVec (conditionally_calc_angle_and_derivatives p0 p1 p2 x box cutoff2
                  param0 d0 d1).deriv0
            ∧ (conditionally_calc_angle_and_derivatives p0 p1 p2 (fun n => R.mulVec (x n))
                box cutoff2 param0' d0' d1').deriv1
              = R.mulVec (conditionally_calc_angle_and_derivatives p0 p1 p2 x box cutoff2
                  param0 d0 d1).deriv1))
    ∧ (∀ (R : Matrix (Fin 3) (Fin 3) ℝ) (p0 p1 p2 p3 : ℕ) (x : ℕ → Vec3) (box : Vec3),
        R.transpose * R = 1 → R.det = 1 →
        no_wrap p3 p0 x box → no_wrap p3 p0 (fun n => R.mulVec (x n)) box →
        no_wrap p3 p2 x box → no_wrap p3 p2 (fun n => R.mulVec (x n)) box →
        no_wrap p2 p1 x box → no_wrap p2 p1 (fun n => R.mulVec (x n)) box →
        calc_dihedral p0 p1 p2 p3 (fun n => R.mulVec (x n)) box
          = calc_dihedral p0 p1 p2 p3 x box)
    ∧ (∀ (R : Matrix (Fin 3) (Fin 3) ℝ) (p0 p1 p2 p3 : ℕ) (x : ℕ → Vec3) (box : Vec3)
          (cutoff2 param0 param0' : ℝ) (d0 d1 d2 d0' d1' d2' : Vec3),
        R.transpose * R = 1 → R.det = 1 →
        no_wrap p3 p0 x box → no_wrap p3 p0 (fun n => R.mulVec (x n)) box →
        no_wrap p3 p2 x box → no_wrap p3 p2 (fun n => R.mulVec (x n)) box →
        no_wrap p2 p1 x box → no_wrap p2 p1 (fun n => R.mulVec (x n)) box →
        (conditionally_calc_dihedral_and_derivatives p0 p1 p2 p3 (fun n => R.mulVec (x n))
            box cutoff2 param0' d0' d1' d2').param_val
          = (conditionally_calc_dihedral_and_derivatives p0 p1 p2 p3 x box cutoff2 param0
              d0 d1 d2).param_val
        ∧ (conditionally_calc_dihedral_and_derivatives p0 p1 p2 p3 (fun n => R.mulVec (x n))
            box cutoff2 param0' d0' d1' d2').deriv0
          = R.mulVec (conditionally_calc_dihedral_and_derivatives p0 p1 p2 p3 x box cutoff2
              param0 d0 d1 d2).deriv0
        ∧ (conditionally_calc_dihedral_and_derivatives p0 p1 p2 p3 (fun n => R.mulVec (x n))
            box cutoff2 param0' d0' d1' d2').deriv1
          = R.mulVec (conditionally_calc_dihedral_and_derivatives p0 p1 p2 p3 x box cutoff2
              param0 d0 d1 d2).deriv1
        ∧ (conditionally_calc_dihedral_and_derivatives p0 p1 p2 p3 (fun n => R.mulVec (x n))
            box cutoff2 param0' d0' d1' d2').deriv2
          = R.mulVec (conditionally_calc_dihedral_and_derivatives p0 p1 p2 p3 x box cutoff2
              param0 d0 d1 d2).deriv2) := by
  refine ⟨sub_min_image_translated, ?_, ?_, ?_, condSq_translated, condDist_translated,
    condAngle_translated, condDihedral_translated, ?_, ?_, ?_, ?_, ?_, ?_, ?_⟩
  · intro t a b x box
    simp only [calc_distance, calc_sq_translated]
  · intro t p0 p1 p2 x box
    simp only [calc_angle, condSq_eq, calc_sq_translated, sub_min_image_translated]
  · intro t p0 p1 p2 p3 x box
    simp only [calc_dihedral, sub_min_image_translated]
  · intro R a b x box hR hx hx'
    simp only [calc_distance]
    rw [calc_sq_rotated R hR a b x box hx hx']
  · intro R a b x box cutoff2 param0 param0' d0 d0' hR hx hx'
    exact condSq_rotated R hR a b x box cutoff2 param0 param0' d0 d0' hx hx'
  · intro R a b x box cutoff2 param0 param0' d0 d0' hR hx hx'
    exact condDist_rotated R hR a b x box cutoff2 param0 param0' d0 d0' hx hx'
  · intro R p0 p1 p2 x box hR h20 h20' h21 h21'
    exact calc_angle_rotated R hR p0 p1 p2 x box h20 h20' h21 h21'
  · intro R p0 p1 p2 x box cutoff2 param0 param0' d0 d1 d0' d1' hR h20 h20' h21 h21'
    exact condAngle_rotated R hR p0 p1 p2 x box cutoff2 param0 param0' d0 d1 d0' d1'
      h20 h20' h21 h21'
  · intro R p0 p1 p2 p3 x box hR hdet h30 h30' h32 h32' h21 h21'
    exact calc_dihedral_rotated R hR hdet p0 p1 p2 p3 x box h30 h30' h32 h32' h21 h21'
  · intro R p0 p1 p2 p3 x box cutoff2 param0 param0' d0 d1 d2 d0' d1' d2' hR hdet
      h30 h30' h32 h32' h21 h21'
    exact condDihedral_rotated R hR hdet p0 p1 p2 p3 x box cutoff2 param0 param0'
      d0 d1 d2 d0' d1' d2' h30 h30' h32 h32' h21 h21'

/-- Four concrete particles close together (no wrap before or after the
rotation `rotC9`). -/
noncomputable def posW9 : ℕ → Vec3 := fun n =>
  if n = 0 then ![0, 0, 0] else if n = 1 then ![1, 0, 0]
  else if n = 2 then ![1, 1, 0] else ![1, 1, 1]

/-- Witness for the amended C9 at a concrete rotation, translation and
configuration, covering the values and a rotated-gradient instance. -/
theorem C9_amended_witness :
    calc_distance 0 1 (fun n => rotC9.mulVec (posW9 n)) boxC7 = calc_distance 0 1 posW9 boxC7
    ∧ calc_angle 0 1 2 (fun n => rotC9.mulVec (posW9 n)) boxC7 = calc_angle 0 1 2 posW9 boxC7
    ∧ calc_dihedral 0 1 2 3 (fun n => rotC9.mulVec (posW9 n)) boxC7
        = calc_dihedral 0 1 2 3 posW9 boxC7
    ∧ calc_distance 0 1 (fun n i => posW9 n i + (![7, 8, 9] : Vec3) i) boxC7
        = calc_distance 0 1 posW9 boxC7
    ∧ (conditionally_calc_dihedral_and_derivatives 0 1 2 3 (fun n => rotC9.mulVec (posW9 n))
        boxC7 5 0 vz vz vz).deriv0
      = rotC9.mulVec (conditionally_calc_dihedral_and_derivatives 0 1 2 3 posW9 boxC7 5 0
          vz vz vz).deriv0
    ∧ (conditionally_calc_squared_distance_and_derivatives 0 1
        (fun n => rotC9.mulVec (posW9 n)) boxC7 9 0 vz).param_val
      = (conditionally_calc_squared_distance_and_derivatives 0 1 posW9 boxC7 9 0
          vz).param_val := by
  obtain ⟨T1, T2, T3, T4, T5, T6, T7, T8, R1, R2, R3, R4, R5, R6, R7⟩ :=
    C9_amended_rigid_motion
  have hbound : ∀ (n : ℕ) (i : Fin 3), 0 ≤ posW9 n i ∧ posW9 n i ≤ 1 := by
    intro n i
    unfold posW9
    split_ifs <;> fin_cases i <;> norm_num
  have hbox3 : ∀ i : Fin 3, boxC7 i = 3 := by
    intro i; fin_cases i <;> norm_num [boxC7]
  have hnw : ∀ a b : ℕ, no_wrap a b posW9 boxC7 := by
    intro a b i
    rw [hbox3, abs_le]
    obtain ⟨h1, h2⟩ := hbound a i
    obtain ⟨h3, h4⟩ := hbound b i
    constructor <;> linarith
  have hbound' : ∀ (n : ℕ) (i : Fin 3), |rotC9.mulVec (posW9 n) i| ≤ 3/2 := by
    intro n i
    unfold posW9
    split_ifs <;> fin_cases i <;>
      norm_num [rotC9, Matrix.mulVec, Matrix.dotProduct, Fin.sum_univ_three, abs_le]
  have hnw' : ∀ a b : ℕ, no_wrap a b (fun n => rotC9.mulVec (posW9 n)) boxC7 := by
    intro a b i
    rw [hbox3, sub_eq_add_neg]
    refine le_trans (abs_add _ _) ?_
    rw [abs_neg]
    have h1 := hbound' b i
    have h2 := hbound' a i
    linarith
  exact ⟨R1 rotC9 0 1 posW9 boxC7 rotC9_orthogonal (hnw 0 1) (hnw' 0 1),
    R4 rotC9 0 1 2 posW9 boxC7 rotC9_orthogonal (hnw 2 0) (hnw' 2 0) (hnw 2 1) (hnw' 2 1),
    R6 rotC9 0 1 2 3 posW9 boxC7 rotC9_orthogonal rotC9_det (hnw 3 0) (hnw' 3 0)
      (hnw 3 2) (hnw' 3 2) (hnw 2 1) (hnw' 2 1),
    T2 ![7, 8, 9] 0 1 posW9 boxC7,
    (R7 rotC9 0 1 2 3 posW9 boxC7 5 0 0 vz vz vz vz vz vz rotC9_orthogonal rotC9_det
      (hnw 3 0) (hnw' 3 0) (hnw 3 2) (hnw' 3 2) (hnw 2 1) (hnw' 2 1)).2.1,
    (R2 rotC9 0 1 posW9 boxC7 9 0 0 vz vz rotC9_orthogonal (hnw 0 1) (hnw' 0 1)).2.1⟩

end Geometry
